import Mathlib

/-
Verification of the PredictFinance resilience/monitoring layer.

Shallow embedding of:
  * api/data_fetcher.py       (buscar_dados_historicos, processar_dataframe)
  * database/db_manager.py    (insert_prediction, update_prediction_validation)
  * src/drift_detector.py     (detect_drift_sliding_window decision core)
  * src/performance_monitor.py (register_prediction, validate_predictions)

Conventions: Python floats are modelled as rationals; a pandas cell that may
be NaN is a `Cell`; external effects (network calls, the system clock,
database connections) are inputs gathered in environment records; ISO date
strings are modelled as integer day numbers.
-/

namespace PredictFinance

/-- A cell of an OHLCV matrix: a numeric value or NaN. -/
inductive Cell where
  | nan : Cell
  | val : ℚ → Cell
deriving DecidableEq, Repr

/-- `np.isnan` on one cell. -/
def Cell.isNan : Cell → Bool
  | .nan => true
  | .val _ => false

/-- The numpy comparison `x <= 0` (False on NaN). -/
def Cell.nonpos : Cell → Bool
  | .nan => false
  | .val q => decide (q ≤ 0)

/-- One row of the OHLCV matrix (columns Open, High, Low, Close, Volume). -/
structure Row where
  open_ : Cell
  high : Cell
  low : Cell
  close : Cell
  volume : Cell
deriving DecidableEq, Repr

/-- `np.isnan(row).any()` over the five columns. -/
def Row.hasNan (r : Row) : Bool :=
  r.open_.isNan || r.high.isNan || r.low.isNan || r.close.isNan || r.volume.isNan

/-- `(row[:4] <= 0).any()`: some OHLC cell is ≤ 0. -/
def Row.ohlcNonpos (r : Row) : Bool :=
  r.open_.nonpos || r.high.nonpos || r.low.nonpos || r.close.nonpos

/-- Does the row satisfy high ≥ low (vacuously true when either is NaN)?
This predicate is stated by the spec; `processar_dataframe` never checks it. -/
def Row.highGeLow (r : Row) : Bool :=
  match r.high, r.low with
  | .val h, .val l => decide (l ≤ h)
  | _, _ => true

/-- The HTTPException outcomes of the fetch path. -/
inductive FetchErr where
  /-- 400: `len(df) < dias` in `processar_dataframe`. -/
  | insufficientData
  /-- 500: `np.isnan(dados_array).any()` in `processar_dataframe`. -/
  | nullValues
  /-- 500: `(dados_array[:, :4] <= 0).any()` in `processar_dataframe`. -/
  | invalidValues
  /-- 503: all cascade strategies failed. -/
  | dataUnavailable
deriving DecidableEq, Repr

/-- The provenance strings returned by `buscar_dados_historicos`. -/
inductive Fonte where
  | apiV8             -- "Yahoo Finance API v8"
  | yfinance          -- "yfinance"
  | sqliteCache       -- "SQLite Cache"
  | fallbackHardcoded -- "Fallback Hardcoded"
deriving DecidableEq, Repr

/-- `processar_dataframe(df, dias, ticker)` (api/data_fetcher.py lines 187–238).
The five columns are always present in a `Row`, so the column check passes. -/
def processar_dataframe (df : List Row) (dias : ℕ) : Except FetchErr (List Row) :=
  if df.length < dias then .error .insufficientData
  else
    let dfRecente := df.drop (df.length - dias)   -- df.tail(dias)
    if dfRecente.any Row.hasNan then .error .nullValues
    else if dfRecente.any Row.ohlcNonpos then .error .invalidValues
    else .ok dfRecente

/-- The outside world as seen by `buscar_dados_historicos`: availability flags
and the outcome of each external call (an exception is `.error ()`). -/
structure FetchEnv where
  apiV8Disponivel : Bool
  /-- Result of `coletar_dados_yahoo_v8_custom_range`. -/
  v8Result : Except Unit (List Row)
  /-- Result of `yf.Ticker(...).history` on 0-based attempt i. -/
  yfAttempt : ℕ → Except Unit (List Row)
  dbDisponivel : Bool
  /-- Result of `db.get_data(ticker, dias)`: exception, `None`, or rows. -/
  dbResult : Except Unit (Option (List Row))
  fallbackDisponivel : Bool
  /-- Result of `get_dados_exemplo(ticker, dias)` (module absent from the
  snapshot; its outcome is an environment input). -/
  fbResult : Except Unit (List Row)

/-- Observable events of one fetch run, used to audit attempt counts. -/
inductive FetchEv where
  | v8Call
  | yfCall (tentativa : ℕ)
  | sleepSecs (secs : ℕ)
  | dbCall
  | fbCall
deriving DecidableEq, Repr

/-- `max_tentativas = 3` of the yfinance loop. -/
def max_tentativas : ℕ := 3

/-- The strategy-2 retry loop (lines 104–126): `df` holds the last assigned
frame, the loop breaks on the first nonempty frame, and
`time.sleep(2 ** (tentativa + 1))` runs only after an attempt that raised and
only when it was not the last attempt.  `fuel` is the number of attempts left. -/
def yfLoopAux (att : ℕ → Except Unit (List Row)) :
    ℕ → ℕ → List Row → List Row × List FetchEv
  | 0, _, df => (df, [])
  | fuel + 1, tentativa, df =>
    match att tentativa with
    | .ok r =>
        if r.isEmpty then
          let rest := yfLoopAux att fuel (tentativa + 1) r
          (rest.1, .yfCall tentativa :: rest.2)
        else
          (r, [.yfCall tentativa])
    | .error _ =>
        let rest := yfLoopAux att fuel (tentativa + 1) df
        if fuel = 0 then (rest.1, .yfCall tentativa :: rest.2)
        else (rest.1, .yfCall tentativa :: .sleepSecs (2 ^ (tentativa + 1)) :: rest.2)

/-- The whole yfinance loop, starting from `df = pd.DataFrame()` (empty). -/
def yfLoop (att : ℕ → Except Unit (List Row)) : List Row × List FetchEv :=
  yfLoopAux att max_tentativas 0 []

/-- Strategy 1 (lines 78–97): one call to the API v8; the surrounding
`except Exception` also swallows the HTTPException that
`processar_dataframe` may raise, so any failure falls through to strategy 2. -/
def estrategia1 (env : FetchEnv) (dias : ℕ) : Option (List Row × Fonte) :=
  if env.apiV8Disponivel then
    match env.v8Result with
    | .ok df =>
        if df.isEmpty = false ∧ dias ≤ df.length then
          match processar_dataframe df dias with
          | .ok m => some (m, Fonte.apiV8)
          | .error _ => none
        else none
    | .error _ => none
  else none

/-- Strategy 3 (lines 128–146): consult the SQLite cache, guarded by
`df.empty and DB_DISPONIVEL`; the rows are returned without further
validation. -/
def estrategia3 (env : FetchEnv) (df : List Row) (dias : ℕ) : Option (List Row) :=
  if df.isEmpty ∧ env.dbDisponivel then
    match env.dbResult with
    | .ok (some rows) => if dias ≤ rows.length then some rows else none
    | .ok none => none
    | .error _ => none
  else none

/-- `buscar_dados_historicos(ticker, dias)` (api/data_fetcher.py lines 43–184),
returning the HTTP outcome together with the trace of external events. -/
def buscar_dados_historicos (env : FetchEnv) (ticker : String) (dias : ℕ) :
    Except FetchErr (List Row × Fonte) × List FetchEv :=
  let ev1 : List FetchEv := if env.apiV8Disponivel then [.v8Call] else []
  match estrategia1 env dias with
  | some res => (.ok res, ev1)
  | none =>
      let yl := yfLoop env.yfAttempt
      let df := yl.1
      let ev2 := ev1 ++ yl.2
      let ev3 := ev2 ++ (if df.isEmpty ∧ env.dbDisponivel then [FetchEv.dbCall] else [])
      match estrategia3 env df dias with
      | some rows => (.ok (rows, Fonte.sqliteCache), ev3)
      | none =>
          if df.isEmpty then
            if env.fallbackDisponivel ∧ ticker.toUpper = "B3SA3.SA" ∧ dias = 60 then
              match env.fbResult with
              | .ok rows => (.ok (rows, Fonte.fallbackHardcoded), ev3 ++ [FetchEv.fbCall])
              | .error _ => (.error .dataUnavailable, ev3 ++ [FetchEv.fbCall])
            else (.error .dataUnavailable, ev3)
          else ((processar_dataframe df dias).map (fun m => (m, Fonte.yfinance)), ev3)

example :
    processar_dataframe [⟨.val 1, .val 2, .val 1, .val 1, .val 5⟩] 1 =
      .ok [⟨.val 1, .val 2, .val 1, .val 1, .val 5⟩] := rfl

example : processar_dataframe [⟨.val 1, .val 2, .val 1, .val 1, .val 5⟩] 2 =
    .error .insufficientData := rfl

/- ============================================================
   database/db_manager.py — the prediction ledger
   ============================================================ -/

/-- One row of the `predictions` table (same columns in Postgres and SQLite);
`request_id` is UNIQUE in both schemas, timestamps are day numbers. -/
structure PredRow where
  request_id : String
  ticker : String
  timestamp : ℤ
  predicted_value : ℚ
  actual_value : Option ℚ
  error : Option ℚ
  error_pct : Option ℚ
  validated : Bool
  validation_date : Option ℤ
deriving DecidableEq, Repr

/-- Both persistent backends: the networked Postgres table and the embedded
SQLite table. -/
structure LedgerState where
  pg : List PredRow
  sq : List PredRow
deriving DecidableEq, Repr

/-- Connection behaviour during one call: `pg_enabled` mirrors the attribute
set in `__init__`; the Fails flags say whether the backend raises. -/
structure LedgerEnv where
  pg_enabled : Bool
  pgFails : Bool
  sqFails : Bool
deriving DecidableEq, Repr

/-- Number of rows whose `request_id` equals `rid`. -/
def countKey (table : List PredRow) (rid : String) : ℕ :=
  (table.filter fun r => r.request_id = rid).length

/-- Postgres `INSERT ... VALUES (..., FALSE) ON CONFLICT (request_id) DO
UPDATE SET predicted_value = EXCLUDED.predicted_value, timestamp =
EXCLUDED.timestamp` (lines 414–423): on conflict only those two columns
change; otherwise a fresh unvalidated row is appended. -/
def pgUpsert (table : List PredRow) (rid tick : String) (ts : ℤ) (v : ℚ) : List PredRow :=
  if table.any fun r => r.request_id = rid then
    table.map fun r =>
      if r.request_id = rid then { r with predicted_value := v, timestamp := ts } else r
  else
    table ++ [{ request_id := rid, ticker := tick, timestamp := ts, predicted_value := v,
                actual_value := none, error := none, error_pct := none,
                validated := false, validation_date := none }]

/-- SQLite `INSERT OR REPLACE INTO predictions (request_id, ticker, timestamp,
predicted_value, validated) VALUES (?, ?, ?, ?, 0)` (lines 434–438): the row
conflicting on the UNIQUE `request_id` is deleted and a fresh row inserted
(remaining columns become NULL, `validated` becomes 0). -/
def sqliteInsertOrReplace (table : List PredRow) (rid tick : String) (ts : ℤ) (v : ℚ) :
    List PredRow :=
  (table.filter fun r => r.request_id ≠ rid) ++
    [{ request_id := rid, ticker := tick, timestamp := ts, predicted_value := v,
       actual_value := none, error := none, error_pct := none,
       validated := false, validation_date := none }]

/-- `insert_prediction` (db_manager.py lines 389–443): when Postgres is
enabled and the write succeeds, return True at once (SQLite untouched);
when Postgres raises, fall through to the SQLite fallback; a SQLite failure
returns False. -/
def insert_prediction (env : LedgerEnv) (st : LedgerState) (rid tick : String)
    (ts : ℤ) (v : ℚ) : LedgerState × Bool :=
  if env.pg_enabled = true ∧ env.pgFails = false then
    ({ st with pg := pgUpsert st.pg rid tick ts v }, true)
  else if env.sqFails = true then (st, false)
  else ({ st with sq := sqliteInsertOrReplace st.sq rid tick ts v }, true)

/-- The `UPDATE predictions SET actual_value = ?, error = ?, error_pct = ?,
validated = 1/TRUE, validation_date = ? WHERE request_id = ?` statement run
by both branches of `update_prediction_validation`. -/
def updValTable (t : List PredRow) (rid : String) (av er epct : ℚ) (vdate : ℤ) :
    List PredRow :=
  t.map fun r =>
    if r.request_id = rid then
      { r with actual_value := some av, error := some er, error_pct := some epct,
               validated := true, validation_date := some vdate }
    else r

/-- `update_prediction_validation` (db_manager.py lines 445–509): run the
UPDATE on Postgres first when enabled; if it touched a row, return True;
otherwise (or when Postgres raises) run the same UPDATE on SQLite and return
whether a row was touched. -/
def update_prediction_validation (env : LedgerEnv) (st : LedgerState) (rid : String)
    (av er epct : ℚ) (vdate : ℤ) : LedgerState × Bool :=
  if env.pg_enabled = true ∧ env.pgFails = false ∧
      (st.pg.any fun r => r.request_id = rid) = true then
    ({ st with pg := updValTable st.pg rid av er epct vdate }, true)
  else
    let st1 := if env.pg_enabled = true ∧ env.pgFails = false then
                 { st with pg := updValTable st.pg rid av er epct vdate }
               else st
    if env.sqFails = true then (st1, false)
    else ({ st1 with sq := updValTable st1.sq rid av er epct vdate },
          st1.sq.any fun r => r.request_id = rid)

/-- Postgres reachable and healthy (DATABASE_URL present, connection works). -/
def pgOnlyEnv : LedgerEnv := ⟨true, false, false⟩

/-- No Postgres configured; the embedded SQLite backend serves the call. -/
def sqOnlyEnv : LedgerEnv := ⟨false, false, false⟩

/- ============================================================
   src/drift_detector.py — decision core of detect_drift_sliding_window
   ============================================================ -/

/-- The fields of the `_calculate_stats` dict that the drift decision reads
(`n_samples`, `mean`, `std`; the std comes from `np.std`). -/
structure WindowStats where
  n_samples : ℕ
  mean : ℚ
  std : ℚ
deriving DecidableEq, Repr

/-- The report's `severity` field. -/
inductive Severity where
  | low_none   -- "none"
  | medium     -- "medium"
  | high       -- "high"
deriving DecidableEq, Repr

/-- Constructor thresholds of `SlidingWindowDriftDetector`. -/
structure DriftConfig where
  mean_threshold_pct : ℚ
  std_threshold_pct : ℚ
  significance_level : ℚ
deriving DecidableEq, Repr

/-- The defaults: 5.0, 50.0, 0.05. -/
def defaultDriftConfig : DriftConfig := ⟨5, 50, 1 / 20⟩

/-- `abs((current_mean - reference_mean) / reference_mean) * 100`. -/
def mean_diff_pct (cur ref : WindowStats) : ℚ :=
  |((cur.mean - ref.mean) / ref.mean)| * 100

/-- `abs((current_std - reference_std) / reference_std) * 100`. -/
def std_diff_pct (cur ref : WindowStats) : ℚ :=
  |((cur.std - ref.std) / ref.std)| * 100

/-- The outcome fields of the drift report that the claims mention. -/
structure DriftReport where
  drift_detected : Bool
  severity : Severity
deriving DecidableEq, Repr

/-- The decision core of `detect_drift_sliding_window` (drift_detector.py
lines 199–254), over the two windows' statistics.  `ksP` is the p-value that
`scipy.stats.ks_2samp` would return; the code consults it only when
`len(current_data) >= 5 and len(reference_data) >= 20`. -/
def detect_drift_core (cfg : DriftConfig) (cur ref : WindowStats) (ksP : ℚ) : DriftReport :=
  let mdp := mean_diff_pct cur ref
  let drift1 : Bool := decide (mdp > cfg.mean_threshold_pct)
  let sdp := std_diff_pct cur ref
  let drift2 : Bool := drift1 || decide (sdp > cfg.std_threshold_pct)
  let drift3 : Bool :=
    if 5 ≤ cur.n_samples ∧ 20 ≤ ref.n_samples then
      if ksP < cfg.significance_level ∧ (mdp > 3 ∨ sdp > 30) then true else drift2
    else drift2
  { drift_detected := drift3,
    severity :=
      if mdp > 10 ∨ sdp > 100 then .high
      else if drift3 then .medium else .low_none }

/- ============================================================
   src/performance_monitor.py — register_prediction / validate_predictions
   ============================================================ -/

/-- One entry of `predictions_db["predictions"]` (the JSON-backed list). -/
structure Prediction where
  request_id : String
  timestamp : ℤ
  predicted_value : ℚ
  validated : Bool
  actual_value : Option ℚ
  error : Option ℚ
  error_pct : Option ℚ
  validation_date : Option ℤ
deriving DecidableEq, Repr

/-- The realized-price series: pairs (normalized date, Close). -/
abbrev MarketData := List (ℤ × ℚ)

/-- `data.loc[check_date, 'Close']` when `check_date in data.index`. -/
def lookupClose (data : MarketData) (d : ℤ) : Option ℚ :=
  (data.find? fun p => p.1 = d).map (·.2)

/-- The `for offset in range(5)` search: the first date among
`next_day + 0 .. next_day + 4` present in the index, with its Close. -/
def findActual (data : MarketData) (nextDay : ℤ) : Option (ℤ × ℚ) :=
  (List.range 5).findSome? fun off : ℕ =>
    (lookupClose data (nextDay + (off : ℤ))).map fun c => (nextDay + (off : ℤ), c)

/-- Outcome of the per-record body of the validation loop. -/
inductive ValOutcome where
  | skippedFuture
  | validatedOk
  | notFound
deriving DecidableEq, Repr

/-- The body of the validation loop (performance_monitor.py lines 302–363) on
one unvalidated record: skip if the target day `timestamp + 1` is after
`today`, otherwise look up the realized Close and mark the record validated. -/
def validate_one (data : MarketData) (today vdate : ℤ) (p : Prediction) :
    Prediction × ValOutcome :=
  let nextDay := p.timestamp + 1
  if today < nextDay then (p, .skippedFuture)
  else
    match findActual data nextDay with
    | some dc =>
        let er := |p.predicted_value - dc.2|
        ({ p with validated := true, actual_value := some dc.2, error := some er,
                  error_pct := some (er / dc.2 * 100), validation_date := some vdate },
         .validatedOk)
    | none => (p, .notFound)

/-- The dict returned by `validate_predictions` (`error` key flattened to a
Bool; absent counters are 0). -/
structure ValidationResult where
  error : Bool
  validated : ℕ
  skipped_future : ℕ
  not_found : ℕ
  pending : ℕ
deriving DecidableEq, Repr

/-- `validate_predictions` (performance_monitor.py lines 215–385).  `data` is
the realized-price fetch outcome (`none` = no frame obtained); `today` is
`datetime.now().date()` and also serves as `validation_date`.  Records are
dicts mutated in place, so the updated list is a map over the original. -/
def validate_predictions (preds : List Prediction) (data : Option MarketData)
    (today : ℤ) : ValidationResult × List Prediction :=
  let unvalidated := preds.filter fun p => p.validated = false
  if unvalidated.isEmpty then
    (⟨false, 0, 0, 0, 0⟩, preds)
  else
    match data with
    | none => (⟨true, 0, 0, 0, unvalidated.length⟩, preds)
    | some d =>
        if d.isEmpty then (⟨true, 0, 0, 0, unvalidated.length⟩, preds)
        else
          let newPreds := preds.map fun p =>
            if p.validated = false then (validate_one d today today p).1 else p
          let outcomes := unvalidated.map fun p => (validate_one d today today p).2
          let vc := (outcomes.filter (· = .validatedOk)).length
          let sf := (outcomes.filter (· = .skippedFuture)).length
          let nf := (outcomes.filter (· = .notFound)).length
          (⟨false, vc, sf, nf, unvalidated.length - vc - sf⟩, newPreds)

/-- State touched by `register_prediction`: the database ledger and the
JSON-backed list `predictions_db["predictions"]`. -/
structure MonitorState where
  ledger : LedgerState
  json : List Prediction
deriving DecidableEq, Repr

/-- `register_prediction` (performance_monitor.py lines 179–213): build the
entry, try the database write via `insert_prediction` (exceptions swallowed
into the Bool), then unconditionally append the entry to the JSON list. -/
def register_prediction (env : LedgerEnv) (st : MonitorState) (rid tick : String)
    (predDate : ℤ) (v : ℚ) : MonitorState × Bool :=
  let entry : Prediction :=
    { request_id := rid, timestamp := predDate, predicted_value := v,
      validated := false, actual_value := none, error := none,
      error_pct := none, validation_date := none }
  let ins := insert_prediction env st.ledger rid tick predDate v
  ({ ledger := ins.1, json := st.json ++ [entry] }, ins.2)

/- ============================================================
   Helper lemmas about the ledger tables
   ============================================================ -/

theorem countKey_append (a b : List PredRow) (rid : String) :
    countKey (a ++ b) rid = countKey a rid + countKey b rid := by
  simp [countKey, List.filter_append]

theorem countKey_eq_zero (t : List PredRow) (rid : String) :
    countKey t rid = 0 ↔ (t.any fun r => r.request_id = rid) = false := by
  simp [countKey, List.length_eq_zero, List.filter_eq_nil_iff, List.any_eq_true]

theorem one_le_countKey (t : List PredRow) (rid : String) :
    1 ≤ countKey t rid ↔ (t.any fun r => r.request_id = rid) = true := by
  rw [← Decidable.not_iff_not]
  simp only [not_le, Nat.lt_one_iff, Bool.not_eq_true]
  exact countKey_eq_zero t rid

theorem countKey_map_preserve (t : List PredRow) (rid : String) (f : PredRow → PredRow)
    (hf : ∀ r, (f r).request_id = r.request_id) :
    countKey (t.map f) rid = countKey t rid := by
  induction t with
  | nil => rfl
  | cons a t ih =>
      by_cases h : a.request_id = rid
      · simp [countKey, List.filter_cons, hf a, h] at ih ⊢
        exact ih
      · simp [countKey, List.filter_cons, hf a, h] at ih ⊢
        exact ih

theorem countKey_pgUpsert (t : List PredRow) (rid tick : String) (ts : ℤ) (v : ℚ) :
    countKey (pgUpsert t rid tick ts v) rid = max (countKey t rid) 1 := by
  unfold pgUpsert
  by_cases hany : (t.any fun r => r.request_id = rid) = true
  · rw [if_pos hany, countKey_map_preserve]
    · have h1 : 1 ≤ countKey t rid := (one_le_countKey t rid).mpr hany
      omega
    · intro r; by_cases hr : r.request_id = rid <;> simp [hr]
  · rw [if_neg hany, countKey_append]
    have h0 : countKey t rid = 0 :=
      (countKey_eq_zero t rid).mpr (by simpa using hany)
    rw [h0]
    simp [countKey]

theorem pgUpsert_value (t : List PredRow) (rid tick : String) (ts : ℤ) (v : ℚ) :
    ∀ r ∈ pgUpsert t rid tick ts v, r.request_id = rid → r.predicted_value = v := by
  intro r hr hrid
  unfold pgUpsert at hr
  by_cases hany : (t.any fun x => x.request_id = rid) = true
  · rw [if_pos hany] at hr
    rcases List.mem_map.mp hr with ⟨x, hx, hfx⟩
    by_cases hxr : x.request_id = rid
    · rw [if_pos hxr] at hfx
      rw [← hfx]
    · rw [if_neg hxr] at hfx
      exact absurd (hfx ▸ hrid) hxr
  · rw [if_neg hany] at hr
    rcases List.mem_append.mp hr with h1 | h2
    · exact absurd (List.any_eq_true.mpr ⟨r, h1, by simpa using hrid⟩) hany
    · simp only [List.mem_singleton] at h2
      rw [h2]

theorem countKey_sqliteInsertOrReplace (t : List PredRow) (rid tick : String)
    (ts : ℤ) (v : ℚ) :
    countKey (sqliteInsertOrReplace t rid tick ts v) rid = 1 := by
  unfold sqliteInsertOrReplace
  rw [countKey_append]
  have h0 : countKey (t.filter fun r => r.request_id ≠ rid) rid = 0 := by
    simp only [countKey, List.length_eq_zero, List.filter_eq_nil_iff]
    intro a ha
    simp only [List.mem_filter] at ha
    simpa using ha.2
  simp [h0, countKey]

theorem sqliteInsertOrReplace_value (t : List PredRow) (rid tick : String)
    (ts : ℤ) (v : ℚ) :
    ∀ r ∈ sqliteInsertOrReplace t rid tick ts v,
      r.request_id = rid → r.predicted_value = v := by
  intro r hr hrid
  unfold sqliteInsertOrReplace at hr
  rcases List.mem_append.mp hr with h1 | h2
  · exfalso
    rcases List.mem_filter.mp h1 with ⟨_, hne⟩
    exact (by simpa using hne : r.request_id ≠ rid) hrid
  · simp only [List.mem_singleton] at h2
    rw [h2]

theorem updValTable_value (t : List PredRow) (rid : String) (av er epct : ℚ) (vdate : ℤ) :
    ∀ r ∈ updValTable t rid av er epct vdate, r.request_id = rid →
      r.actual_value = some av ∧ r.error = some er ∧ r.error_pct = some epct ∧
      r.validated = true ∧ r.validation_date = some vdate := by
  intro r hr hrid
  unfold updValTable at hr
  rcases List.mem_map.mp hr with ⟨x, _, hfx⟩
  by_cases hxr : x.request_id = rid
  · rw [if_pos hxr] at hfx
    rw [← hfx]
    exact ⟨rfl, rfl, rfl, rfl, rfl⟩
  · rw [if_neg hxr] at hfx
    exact absurd (hfx ▸ hrid) hxr

/- ============================================================
   C4 — insert_prediction is an idempotent upsert keyed by request_id
   ============================================================ -/

/-- C4: recording the same `request_id` twice with different predicted values
leaves exactly one stored record holding the latest `predicted_value`, on the
networked (Postgres) backend and on the embedded (SQLite) backend alike. -/
theorem insert_prediction_upsert_idempotent (st : LedgerState) (rid tick : String)
    (ts1 ts2 : ℤ) (v1 v2 : ℚ) (hpg : countKey st.pg rid ≤ 1) :
    (countKey ((insert_prediction pgOnlyEnv
        (insert_prediction pgOnlyEnv st rid tick ts1 v1).1 rid tick ts2 v2).1).pg rid = 1 ∧
      ∀ r ∈ ((insert_prediction pgOnlyEnv
        (insert_prediction pgOnlyEnv st rid tick ts1 v1).1 rid tick ts2 v2).1).pg,
        r.request_id = rid → r.predicted_value = v2) ∧
    (countKey ((insert_prediction sqOnlyEnv
        (insert_prediction sqOnlyEnv st rid tick ts1 v1).1 rid tick ts2 v2).1).sq rid = 1 ∧
      ∀ r ∈ ((insert_prediction sqOnlyEnv
        (insert_prediction sqOnlyEnv st rid tick ts1 v1).1 rid tick ts2 v2).1).sq,
        r.request_id = rid → r.predicted_value = v2) := by
  constructor
  · have hred : ((insert_prediction pgOnlyEnv
        (insert_prediction pgOnlyEnv st rid tick ts1 v1).1 rid tick ts2 v2).1).pg =
        pgUpsert (pgUpsert st.pg rid tick ts1 v1) rid tick ts2 v2 := by
      simp [insert_prediction, pgOnlyEnv]
    rw [hred]
    constructor
    · rw [countKey_pgUpsert, countKey_pgUpsert]
      omega
    · exact pgUpsert_value _ rid tick ts2 v2
  · have hred : ((insert_prediction sqOnlyEnv
        (insert_prediction sqOnlyEnv st rid tick ts1 v1).1 rid tick ts2 v2).1).sq =
        sqliteInsertOrReplace (sqliteInsertOrReplace st.sq rid tick ts1 v1)
          rid tick ts2 v2 := by
      simp [insert_prediction, sqOnlyEnv]
    rw [hred]
    exact ⟨countKey_sqliteInsertOrReplace _ rid tick ts2 v2,
           sqliteInsertOrReplace_value _ rid tick ts2 v2⟩

/-- Witness for C4 at a concrete empty ledger. -/
theorem insert_prediction_upsert_idempotent_witness :
    countKey (LedgerState.pg ⟨[], []⟩) "r1" ≤ 1 ∧
    ((countKey ((insert_prediction pgOnlyEnv
        (insert_prediction pgOnlyEnv ⟨[], []⟩ "r1" "B3SA3.SA" 1 10).1
        "r1" "B3SA3.SA" 2 20).1).pg "r1" = 1 ∧
      ∀ r ∈ ((insert_prediction pgOnlyEnv
        (insert_prediction pgOnlyEnv ⟨[], []⟩ "r1" "B3SA3.SA" 1 10).1
        "r1" "B3SA3.SA" 2 20).1).pg,
        r.request_id = "r1" → r.predicted_value = 20) ∧
    (countKey ((insert_prediction sqOnlyEnv
        (insert_prediction sqOnlyEnv ⟨[], []⟩ "r1" "B3SA3.SA" 1 10).1
        "r1" "B3SA3.SA" 2 20).1).sq "r1" = 1 ∧
      ∀ r ∈ ((insert_prediction sqOnlyEnv
        (insert_prediction sqOnlyEnv ⟨[], []⟩ "r1" "B3SA3.SA" 1 10).1
        "r1" "B3SA3.SA" 2 20).1).sq,
        r.request_id = "r1" → r.predicted_value = 20)) :=
  ⟨by decide,
   insert_prediction_upsert_idempotent ⟨[], []⟩ "r1" "B3SA3.SA" 1 2 10 20 (by decide)⟩

/- ============================================================
   C5 — update_prediction_validation on an already-validated record
   ============================================================ -/

/-- A record that has already been validated (actual_value 10, error 1,
error_pct 2, validation day 5). -/
def c5Row : PredRow :=
  ⟨"a", "B3SA3.SA", 1, 50, some 10, some 1, some 2, true, some 5⟩

/-- C5 counterexample: re-validating the already-validated `c5Row` with fresh
values returns success yet rewrites `actual_value`, `error`, `error_pct` and
`validation_date` — the record is not left unchanged, refuting the claim that
the call is a no-op. -/
theorem update_validation_not_noop :
    (update_prediction_validation sqOnlyEnv ⟨[], [c5Row]⟩ "a" 20 3 4 9).2 = true ∧
    (update_prediction_validation sqOnlyEnv ⟨[], [c5Row]⟩ "a" 20 3 4 9).1.sq =
      [⟨"a", "B3SA3.SA", 1, 50, some 20, some 3, some 4, true, some 9⟩] ∧
    c5Row.actual_value = some 10 := by
  refine ⟨by decide, by decide, rfl⟩

/-- C5 amended: calling `update_prediction_validation` on a record that is
already validated succeeds (returns True) but is not a no-op: the matching
record's `actual_value`, `error`, `error_pct` and `validation_date` are
overwritten with the newly supplied values (`validated` stays true); the code
never guards on the `validated` flag.  This holds on the Postgres path and on
the SQLite path. -/
theorem update_validation_overwrites (st : LedgerState) (rid : String)
    (av er epct : ℚ) (vdate : ℤ)
    (hpg : (st.pg.any fun r => r.request_id = rid) = true)
    (hsq : (st.sq.any fun r => r.request_id = rid) = true) :
    ((update_prediction_validation pgOnlyEnv st rid av er epct vdate).2 = true ∧
      ∀ r ∈ (update_prediction_validation pgOnlyEnv st rid av er epct vdate).1.pg,
        r.request_id = rid →
          r.actual_value = some av ∧ r.error = some er ∧ r.error_pct = some epct ∧
          r.validated = true ∧ r.validation_date = some vdate) ∧
    ((update_prediction_validation sqOnlyEnv st rid av er epct vdate).2 = true ∧
      ∀ r ∈ (update_prediction_validation sqOnlyEnv st rid av er epct vdate).1.sq,
        r.request_id = rid →
          r.actual_value = some av ∧ r.error = some er ∧ r.error_pct = some epct ∧
          r.validated = true ∧ r.validation_date = some vdate) := by
  constructor
  · have hred : update_prediction_validation pgOnlyEnv st rid av er epct vdate =
        ({ st with pg := updValTable st.pg rid av er epct vdate }, true) := by
      simp [update_prediction_validation, pgOnlyEnv, hpg]
    rw [hred]
    exact ⟨rfl, updValTable_value _ rid av er epct vdate⟩
  · have hred : update_prediction_validation sqOnlyEnv st rid av er epct vdate =
        ({ st with sq := updValTable st.sq rid av er epct vdate },
          st.sq.any fun r => r.request_id = rid) := by
      simp [update_prediction_validation, sqOnlyEnv]
    rw [hred]
    exact ⟨hsq, updValTable_value _ rid av er epct vdate⟩

/-- Witness for C5's amended theorem at a one-record ledger. -/
theorem update_validation_overwrites_witness :
    ((([c5Row] : List PredRow).any fun r => r.request_id = "a") = true ∧
      (([c5Row] : List PredRow).any fun r => r.request_id = "a") = true) ∧
    (((update_prediction_validation pgOnlyEnv ⟨[c5Row], [c5Row]⟩ "a" 20 3 4 9).2 = true ∧
      ∀ r ∈ (update_prediction_validation pgOnlyEnv ⟨[c5Row], [c5Row]⟩ "a" 20 3 4 9).1.pg,
        r.request_id = "a" →
          r.actual_value = some 20 ∧ r.error = some 3 ∧ r.error_pct = some 4 ∧
          r.validated = true ∧ r.validation_date = some 9) ∧
    ((update_prediction_validation sqOnlyEnv ⟨[c5Row], [c5Row]⟩ "a" 20 3 4 9).2 = true ∧
      ∀ r ∈ (update_prediction_validation sqOnlyEnv ⟨[c5Row], [c5Row]⟩ "a" 20 3 4 9).1.sq,
        r.request_id = "a" →
          r.actual_value = some 20 ∧ r.error = some 3 ∧ r.error_pct = some 4 ∧
          r.validated = true ∧ r.validation_date = some 9)) :=
  ⟨⟨by decide, by decide⟩,
   update_validation_overwrites ⟨[c5Row], [c5Row]⟩ "a" 20 3 4 9 (by decide) (by decide)⟩

/- ============================================================
   C6 — no mirroring of successful Postgres writes to SQLite
   ============================================================ -/

/-- C6 counterexample: with Postgres enabled and healthy, a successful
`insert_prediction` returns True yet leaves the embedded SQLite store empty —
the record is not mirrored, refuting the claim. -/
theorem insert_no_mirror :
    (insert_prediction pgOnlyEnv ⟨[], []⟩ "r1" "B3SA3.SA" 1 10).2 = true ∧
    (insert_prediction pgOnlyEnv ⟨[], []⟩ "r1" "B3SA3.SA" 1 10).1.sq = [] := by
  exact ⟨rfl, rfl⟩

/-- C6 amended: the embedded SQLite store is a fallback, not a mirror: a
successful Postgres write returns True, stores the record in Postgres and
leaves SQLite untouched; SQLite receives the record only when the Postgres
write fails (and then the call still returns True). -/
theorem insert_prediction_fallback_not_mirror (st : LedgerState) (rid tick : String)
    (ts : ℤ) (v : ℚ) :
    ((insert_prediction pgOnlyEnv st rid tick ts v).2 = true ∧
      (insert_prediction pgOnlyEnv st rid tick ts v).1.sq = st.sq ∧
      1 ≤ countKey (insert_prediction pgOnlyEnv st rid tick ts v).1.pg rid) ∧
    (∀ env : LedgerEnv, env.pg_enabled = true → env.pgFails = true →
      env.sqFails = false →
      (insert_prediction env st rid tick ts v).1.pg = st.pg ∧
      countKey (insert_prediction env st rid tick ts v).1.sq rid = 1 ∧
      (insert_prediction env st rid tick ts v).2 = true) := by
  constructor
  · have hred : insert_prediction pgOnlyEnv st rid tick ts v =
        ({ st with pg := pgUpsert st.pg rid tick ts v }, true) := by
      simp [insert_prediction, pgOnlyEnv]
    rw [hred]
    refine ⟨rfl, rfl, ?_⟩
    rw [countKey_pgUpsert]
    omega
  · intro env h1 h2 h3
    have hred : insert_prediction env st rid tick ts v =
        ({ st with sq := sqliteInsertOrReplace st.sq rid tick ts v }, true) := by
      simp [insert_prediction, h1, h2, h3]
    rw [hred]
    exact ⟨rfl, countKey_sqliteInsertOrReplace _ rid tick ts v, rfl⟩

/-- Witness for C6's amended theorem (second part at a failing-Postgres
environment). -/
theorem insert_prediction_fallback_not_mirror_witness :
    (LedgerEnv.pg_enabled ⟨true, true, false⟩ = true ∧
      LedgerEnv.pgFails ⟨true, true, false⟩ = true ∧
      LedgerEnv.sqFails ⟨true, true, false⟩ = false) ∧
    ((insert_prediction ⟨true, true, false⟩ ⟨[], []⟩ "r1" "B3SA3.SA" 1 10).1.pg = [] ∧
      countKey (insert_prediction ⟨true, true, false⟩ ⟨[], []⟩ "r1" "B3SA3.SA" 1 10).1.sq
        "r1" = 1 ∧
      (insert_prediction ⟨true, true, false⟩ ⟨[], []⟩ "r1" "B3SA3.SA" 1 10).2 = true) :=
  ⟨⟨rfl, rfl, rfl⟩,
   (insert_prediction_fallback_not_mirror ⟨[], []⟩ "r1" "B3SA3.SA" 1 10).2
     ⟨true, true, false⟩ rfl rfl rfl⟩

/- ============================================================
   C7 — the drift decision rule and its two scenarios
   ============================================================ -/

/-- C7: with the default thresholds, `drift_detected` is true exactly when
mean_diff_pct > 5, or std_diff_pct > 50, or (both windows large enough —
current ≥ 5 and reference ≥ 20 samples — the KS p-value is below 0.05 and the
shift is corroborated by mean_diff_pct > 3 or std_diff_pct > 30).  Moreover
for reference (n=30, mean=100, std=10) and current (n=7, mean=106, std=10)
the detector reports drift with severity medium, and for current
(n=7, mean=100.5, std=10.2) it reports no drift — whatever the KS p-value. -/
theorem drift_detection_rule :
    (∀ (cur ref : WindowStats) (ksP : ℚ),
        (detect_drift_core defaultDriftConfig cur ref ksP).drift_detected = true ↔
          (mean_diff_pct cur ref > 5 ∨ std_diff_pct cur ref > 50 ∨
            (5 ≤ cur.n_samples ∧ 20 ≤ ref.n_samples ∧ ksP < 1 / 20 ∧
              (mean_diff_pct cur ref > 3 ∨ std_diff_pct cur ref > 30)))) ∧
    (∀ ksP : ℚ,
        (detect_drift_core defaultDriftConfig ⟨7, 106, 10⟩ ⟨30, 100, 10⟩ ksP).drift_detected
            = true ∧
        (detect_drift_core defaultDriftConfig ⟨7, 106, 10⟩ ⟨30, 100, 10⟩ ksP).severity
            = Severity.medium) ∧
    (∀ ksP : ℚ,
        (detect_drift_core defaultDriftConfig ⟨7, 100.5, 10.2⟩ ⟨30, 100, 10⟩ ksP).drift_detected
            = false) := by
  refine ⟨?_, ?_, ?_⟩
  · intro cur ref ksP
    simp only [detect_drift_core, defaultDriftConfig]
    split_ifs with h1 h2 <;>
      simp only [Bool.or_eq_true, decide_eq_true_eq] <;>
      tauto
  · intro ksP
    have hm : mean_diff_pct ⟨7, 106, 10⟩ ⟨30, 100, 10⟩ = 6 := by
      simp only [mean_diff_pct]
      rw [show ((106 : ℚ) - 100) / 100 = 3 / 50 by norm_num,
        abs_of_nonneg (by norm_num : (0 : ℚ) ≤ 3 / 50)]
      norm_num
    have hs : std_diff_pct ⟨7, 106, 10⟩ ⟨30, 100, 10⟩ = 0 := by
      simp [std_diff_pct]
    simp only [detect_drift_core, hm, hs]
    norm_num [defaultDriftConfig]
  · intro ksP
    have hm : mean_diff_pct ⟨7, 100.5, 10.2⟩ ⟨30, 100, 10⟩ = 1 / 2 := by
      simp only [mean_diff_pct]
      rw [show ((100.5 : ℚ) - 100) / 100 = 1 / 200 by norm_num,
        abs_of_nonneg (by norm_num : (0 : ℚ) ≤ 1 / 200)]
      norm_num
    have hs : std_diff_pct ⟨7, 100.5, 10.2⟩ ⟨30, 100, 10⟩ = 2 := by
      simp only [std_diff_pct]
      rw [show ((10.2 : ℚ) - 10) / 10 = 1 / 50 by norm_num,
        abs_of_nonneg (by norm_num : (0 : ℚ) ≤ 1 / 50)]
      norm_num
    simp only [detect_drift_core, hm, hs]
    norm_num [defaultDriftConfig]

/- ============================================================
   C9 — validate_predictions on a failed realized-price fetch
   ============================================================ -/

/-- C9: when the realized-price fetch yields nothing (no frame at all, or an
empty frame), `validate_predictions` returns the error marker with zero
records validated and all previously-unvalidated records still pending, and
leaves the prediction list untouched. -/
theorem validate_fetch_failure (preds : List Prediction) (today : ℤ)
    (h : (preds.filter fun p => p.validated = false).isEmpty = false) :
    validate_predictions preds none today =
      (⟨true, 0, 0, 0, (preds.filter fun p => p.validated = false).length⟩, preds) ∧
    validate_predictions preds (some []) today =
      (⟨true, 0, 0, 0, (preds.filter fun p => p.validated = false).length⟩, preds) := by
  have h' : ∃ x ∈ preds, x.validated = false := by
    have hne : (preds.filter fun p => p.validated = false) ≠ [] := by
      intro hnil
      rw [hnil] at h
      simp at h
    rcases List.exists_mem_of_ne_nil _ hne with ⟨x, hx⟩
    rcases List.mem_filter.mp hx with ⟨hx1, hx2⟩
    exact ⟨x, hx1, by simpa using hx2⟩
  constructor <;> simp [validate_predictions, h, h']

/-- Witness for C9 at a single pending prediction. -/
theorem validate_fetch_failure_witness :
    (([({ request_id := "r1", timestamp := 10, predicted_value := 50,
          validated := false, actual_value := none, error := none,
          error_pct := none, validation_date := none } : Prediction)].filter
        fun p => p.validated = false).isEmpty = false) ∧
    (validate_predictions
        [({ request_id := "r1", timestamp := 10, predicted_value := 50,
            validated := false, actual_value := none, error := none,
            error_pct := none, validation_date := none } : Prediction)] none 20 =
      (⟨true, 0, 0, 0, 1⟩,
       [({ request_id := "r1", timestamp := 10, predicted_value := 50,
           validated := false, actual_value := none, error := none,
           error_pct := none, validation_date := none } : Prediction)]) ∧
     validate_predictions
        [({ request_id := "r1", timestamp := 10, predicted_value := 50,
            validated := false, actual_value := none, error := none,
            error_pct := none, validation_date := none } : Prediction)] (some []) 20 =
      (⟨true, 0, 0, 0, 1⟩,
       [({ request_id := "r1", timestamp := 10, predicted_value := 50,
           validated := false, actual_value := none, error := none,
           error_pct := none, validation_date := none } : Prediction)])) := by
  refine ⟨by decide, ?_⟩
  have h := validate_fetch_failure
    [({ request_id := "r1", timestamp := 10, predicted_value := 50,
        validated := false, actual_value := none, error := none,
        error_pct := none, validation_date := none } : Prediction)] 20 (by decide)
  simpa using h

/- ============================================================
   C10 — register_prediction always appends to the JSON list
   ============================================================ -/

/-- C10: every `register_prediction` call appends a fresh entry to the
JSON-backed list even when the database write succeeded, so registering the
same `request_id` twice leaves two JSON entries while the database backend
(Postgres when healthy, SQLite otherwise) keeps exactly one record. -/
theorem register_prediction_json_duplicates (st : MonitorState) (rid tick : String)
    (d1 d2 : ℤ) (v1 v2 : ℚ) (hpg : countKey st.ledger.pg rid ≤ 1) :
    ((register_prediction pgOnlyEnv st rid tick d1 v1).2 = true ∧
      (register_prediction pgOnlyEnv
          (register_prediction pgOnlyEnv st rid tick d1 v1).1 rid tick d2 v2).2 = true ∧
      (register_prediction pgOnlyEnv
          (register_prediction pgOnlyEnv st rid tick d1 v1).1 rid tick d2 v2).1.json.length
        = st.json.length + 2 ∧
      ((register_prediction pgOnlyEnv
          (register_prediction pgOnlyEnv st rid tick d1 v1).1 rid tick d2 v2).1.json.filter
            fun p => p.request_id = rid).length
        = (st.json.filter fun p => p.request_id = rid).length + 2 ∧
      countKey ((register_prediction pgOnlyEnv
          (register_prediction pgOnlyEnv st rid tick d1 v1).1 rid tick d2 v2).1).ledger.pg
          rid = 1) ∧
    ((register_prediction sqOnlyEnv
          (register_prediction sqOnlyEnv st rid tick d1 v1).1 rid tick d2 v2).1.json.length
        = st.json.length + 2 ∧
      countKey ((register_prediction sqOnlyEnv
          (register_prediction sqOnlyEnv st rid tick d1 v1).1 rid tick d2 v2).1).ledger.sq
          rid = 1) := by
  constructor
  · refine ⟨rfl, rfl, ?_, ?_, ?_⟩
    · simp [register_prediction]
    · simp [register_prediction, List.filter_append]
    · have hred : ((register_prediction pgOnlyEnv
          (register_prediction pgOnlyEnv st rid tick d1 v1).1 rid tick d2 v2).1).ledger.pg =
          pgUpsert (pgUpsert st.ledger.pg rid tick d1 v1) rid tick d2 v2 := by
        simp [register_prediction, insert_prediction, pgOnlyEnv]
      rw [hred, countKey_pgUpsert, countKey_pgUpsert]
      omega
  · constructor
    · simp [register_prediction]
    · have hred : ((register_prediction sqOnlyEnv
          (register_prediction sqOnlyEnv st rid tick d1 v1).1 rid tick d2 v2).1).ledger.sq =
          sqliteInsertOrReplace (sqliteInsertOrReplace st.ledger.sq rid tick d1 v1)
            rid tick d2 v2 := by
        simp [register_prediction, insert_prediction, sqOnlyEnv]
      rw [hred]
      exact countKey_sqliteInsertOrReplace _ rid tick d2 v2

/-- Witness for C10 at an empty monitor state. -/
theorem register_prediction_json_duplicates_witness :
    countKey (MonitorState.ledger ⟨⟨[], []⟩, []⟩).pg "r1" ≤ 1 ∧
    (((register_prediction pgOnlyEnv ⟨⟨[], []⟩, []⟩ "r1" "B3SA3.SA" 1 10).2 = true ∧
      (register_prediction pgOnlyEnv
          (register_prediction pgOnlyEnv ⟨⟨[], []⟩, []⟩ "r1" "B3SA3.SA" 1 10).1
          "r1" "B3SA3.SA" 2 20).2 = true ∧
      (register_prediction pgOnlyEnv
          (register_prediction pgOnlyEnv ⟨⟨[], []⟩, []⟩ "r1" "B3SA3.SA" 1 10).1
          "r1" "B3SA3.SA" 2 20).1.json.length = ([] : List Prediction).length + 2 ∧
      ((register_prediction pgOnlyEnv
          (register_prediction pgOnlyEnv ⟨⟨[], []⟩, []⟩ "r1" "B3SA3.SA" 1 10).1
          "r1" "B3SA3.SA" 2 20).1.json.filter
            fun p => p.request_id = "r1").length
        = (([] : List Prediction).filter fun p => p.request_id = "r1").length + 2 ∧
      countKey ((register_prediction pgOnlyEnv
          (register_prediction pgOnlyEnv ⟨⟨[], []⟩, []⟩ "r1" "B3SA3.SA" 1 10).1
          "r1" "B3SA3.SA" 2 20).1).ledger.pg "r1" = 1) ∧
    ((register_prediction sqOnlyEnv
          (register_prediction sqOnlyEnv ⟨⟨[], []⟩, []⟩ "r1" "B3SA3.SA" 1 10).1
          "r1" "B3SA3.SA" 2 20).1.json.length = ([] : List Prediction).length + 2 ∧
      countKey ((register_prediction sqOnlyEnv
          (register_prediction sqOnlyEnv ⟨⟨[], []⟩, []⟩ "r1" "B3SA3.SA" 1 10).1
          "r1" "B3SA3.SA" 2 20).1).ledger.sq "r1" = 1)) :=
  ⟨by decide,
   register_prediction_json_duplicates ⟨⟨[], []⟩, []⟩ "r1" "B3SA3.SA" 1 2 10 20 (by decide)⟩

/- ============================================================
   Helper lemmas about the fetch cascade
   ============================================================ -/

theorem processar_dataframe_ok (df : List Row) (d : ℕ) (m : List Row)
    (h : processar_dataframe df d = .ok m) :
    m.length = d ∧ ∀ r ∈ m, r.hasNan = false ∧ r.ohlcNonpos = false := by
  unfold processar_dataframe at h
  by_cases hlen : df.length < d
  · rw [if_pos hlen] at h
    exact absurd h (by simp)
  · rw [if_neg hlen] at h
    simp only at h
    by_cases h1 : (df.drop (df.length - d)).any Row.hasNan = true
    · rw [if_pos h1] at h
      exact absurd h (by simp)
    · rw [if_neg h1] at h
      by_cases h2 : (df.drop (df.length - d)).any Row.ohlcNonpos = true
      · rw [if_pos h2] at h
        exact absurd h (by simp)
      · rw [if_neg h2] at h
        have hm : m = df.drop (df.length - d) := by
          cases h
          rfl
        subst hm
        refine ⟨?_, ?_⟩
        · rw [List.length_drop]
          omega
        · intro r hr
          constructor
          · rcases List.any_eq_false.mp (Bool.eq_false_iff.mpr h1) r hr with h'
            simpa using h'
          · rcases List.any_eq_false.mp (Bool.eq_false_iff.mpr h2) r hr with h'
            simpa using h'

theorem estrategia1_eq_some (env : FetchEnv) (d : ℕ) (m : List Row) (f : Fonte)
    (h : estrategia1 env d = some (m, f)) :
    f = Fonte.apiV8 ∧ env.apiV8Disponivel = true ∧
    ∃ df, env.v8Result = .ok df ∧ df.isEmpty = false ∧ d ≤ df.length ∧
      processar_dataframe df d = .ok m := by
  unfold estrategia1 at h
  by_cases ha : env.apiV8Disponivel = true
  · rw [if_pos ha] at h
    cases hv : env.v8Result with
    | error e =>
        rw [hv] at h
        dsimp only at h
        exact absurd h (by simp)
    | ok df =>
        rw [hv] at h
        dsimp only at h
        by_cases hc : df.isEmpty = false ∧ d ≤ df.length
        · rw [if_pos hc] at h
          cases hp : processar_dataframe df d with
          | error e =>
              rw [hp] at h
              dsimp only at h
              exact absurd h (by simp)
          | ok m' =>
              rw [hp] at h
              dsimp only at h
              obtain ⟨h1, h2⟩ : m' = m ∧ Fonte.apiV8 = f := by
                simpa using h
              exact ⟨h2.symm, ha, df, rfl, hc.1, hc.2, by rw [← h1]; exact hp⟩
        · rw [if_neg hc] at h
          exact absurd h (by simp)
  · rw [if_neg ha] at h
    exact absurd h (by simp)

theorem estrategia3_eq_some (env : FetchEnv) (df : List Row) (d : ℕ) (rows : List Row)
    (h : estrategia3 env df d = some rows) :
    df.isEmpty = true ∧ env.dbDisponivel = true ∧
    env.dbResult = .ok (some rows) ∧ d ≤ rows.length := by
  unfold estrategia3 at h
  by_cases hc : df.isEmpty = true ∧ env.dbDisponivel = true
  · rw [if_pos hc] at h
    cases hdb : env.dbResult with
    | error e =>
        rw [hdb] at h
        dsimp only at h
        exact absurd h (by simp)
    | ok o =>
        cases o with
        | none =>
            rw [hdb] at h
            dsimp only at h
            exact absurd h (by simp)
        | some rows' =>
            rw [hdb] at h
            dsimp only at h
            by_cases hlen : d ≤ rows'.length
            · rw [if_pos hlen] at h
              obtain h1 : rows' = rows := by simpa using h
              subst h1
              exact ⟨hc.1, hc.2, rfl, hlen⟩
            · rw [if_neg hlen] at h
              exact absurd h (by simp)
  · rw [if_neg hc] at h
    exact absurd h (by simp)

/-- Inversion for a successful fetch: from `.ok (m, f)` read off which source
supplied the matrix and what was checked on it. -/
theorem buscar_ok_cases (env : FetchEnv) (t : String) (d : ℕ) (m : List Row) (f : Fonte)
    (h : (buscar_dados_historicos env t d).1 = .ok (m, f)) :
    (f = Fonte.apiV8 ∧ env.apiV8Disponivel = true ∧
      ∃ df, env.v8Result = .ok df ∧ processar_dataframe df d = .ok m) ∨
    (f = Fonte.yfinance ∧ (yfLoop env.yfAttempt).1.isEmpty = false ∧
      processar_dataframe (yfLoop env.yfAttempt).1 d = .ok m) ∨
    (f = Fonte.sqliteCache ∧ env.dbDisponivel = true ∧
      env.dbResult = .ok (some m) ∧ d ≤ m.length) ∨
    (f = Fonte.fallbackHardcoded ∧ env.fallbackDisponivel = true ∧
      env.fbResult = .ok m) := by
  unfold buscar_dados_historicos at h
  cases h1 : estrategia1 env d with
  | some res =>
      obtain ⟨m1, f1⟩ := res
      rw [h1] at h
      dsimp only at h
      obtain ⟨hm, hf⟩ : m1 = m ∧ f1 = f := by simpa using h
      subst hm
      subst hf
      rcases estrategia1_eq_some env d m1 f1 h1 with ⟨hfa, ha, df, hv, _, _, hp⟩
      exact Or.inl ⟨hfa, ha, df, hv, hp⟩
  | none =>
      rw [h1] at h
      dsimp only at h
      cases h3 : estrategia3 env (yfLoop env.yfAttempt).1 d with
      | some rows =>
          rw [h3] at h
          dsimp only at h
          obtain ⟨hm, hf⟩ : rows = m ∧ Fonte.sqliteCache = f := by
            simpa using h
          subst hm
          rcases estrategia3_eq_some env _ d rows h3 with ⟨_, hdb, hres, hlen⟩
          exact Or.inr (Or.inr (Or.inl ⟨hf.symm, hdb, hres, hlen⟩))
      | none =>
          rw [h3] at h
          dsimp only at h
          by_cases he : (yfLoop env.yfAttempt).1.isEmpty = true
          · rw [if_pos he] at h
            by_cases hfb : env.fallbackDisponivel = true ∧ t.toUpper = "B3SA3.SA" ∧ d = 60
            · rw [if_pos hfb] at h
              cases hfr : env.fbResult with
              | error e =>
                  rw [hfr] at h
                  dsimp only at h
                  exact absurd h (by simp)
              | ok rows =>
                  rw [hfr] at h
                  dsimp only at h
                  obtain ⟨hm, hf⟩ : rows = m ∧ Fonte.fallbackHardcoded = f := by
                    simpa using h
                  subst hm
                  exact Or.inr (Or.inr (Or.inr ⟨hf.symm, hfb.1, rfl⟩))
            · rw [if_neg hfb] at h
              exact absurd h (by simp)
          · rw [if_neg he] at h
            cases hp : processar_dataframe (yfLoop env.yfAttempt).1 d with
            | error e =>
                rw [hp] at h
                dsimp only [Except.map] at h
                exact absurd h (by simp)
            | ok m' =>
                rw [hp] at h
                dsimp only [Except.map] at h
                obtain ⟨hm, hf⟩ : m' = m ∧ Fonte.yfinance = f := by
                  simpa using h
                subst hm
                exact Or.inr (Or.inl ⟨hf.symm, Bool.eq_false_iff.mpr he, rfl⟩)

/-- The `yfLoopAux` step equation at successor fuel, stated for rewriting. -/
theorem yfLoopAux_succ (att : ℕ → Except Unit (List Row)) (fuel tentativa : ℕ)
    (df : List Row) :
    yfLoopAux att (fuel + 1) tentativa df =
      match att tentativa with
      | .ok r =>
          if r.isEmpty then
            let rest := yfLoopAux att fuel (tentativa + 1) r
            (rest.1, .yfCall tentativa :: rest.2)
          else
            (r, [.yfCall tentativa])
      | .error _ =>
          let rest := yfLoopAux att fuel (tentativa + 1) df
          if fuel = 0 then (rest.1, .yfCall tentativa :: rest.2)
          else (rest.1, .yfCall tentativa :: .sleepSecs (2 ^ (tentativa + 1)) :: rest.2) :=
  rfl

/-- When every yfinance attempt raises, the loop runs all 3 attempts, sleeps
2 and 4 seconds after the first two, and leaves an empty frame. -/
theorem yfLoop_all_error (att : ℕ → Except Unit (List Row))
    (h : ∀ i, att i = .error ()) :
    yfLoop att =
      ([], [.yfCall 0, .sleepSecs 2, .yfCall 1, .sleepSecs 4, .yfCall 2]) := by
  have s0 : yfLoopAux att 0 (2 + 1) [] = ([], []) := rfl
  have s1 : yfLoopAux att (0 + 1) 2 [] = ([], [FetchEv.yfCall 2]) := by
    rw [yfLoopAux_succ, h 2]
    norm_num [s0]
  have s2 : yfLoopAux att (1 + 1) 1 [] =
      ([], [FetchEv.yfCall 1, FetchEv.sleepSecs 4, FetchEv.yfCall 2]) := by
    rw [yfLoopAux_succ, h 1]
    have s1' : yfLoopAux att 1 (1 + 1) [] = ([], [FetchEv.yfCall 2]) := s1
    norm_num [s1']
  have s3 : yfLoopAux att (2 + 1) 0 [] =
      ([], [FetchEv.yfCall 0, FetchEv.sleepSecs 2, FetchEv.yfCall 1,
            FetchEv.sleepSecs 4, FetchEv.yfCall 2]) := by
    rw [yfLoopAux_succ, h 0]
    have s2' : yfLoopAux att 2 (0 + 1) [] =
        ([], [FetchEv.yfCall 1, FetchEv.sleepSecs 4, FetchEv.yfCall 2]) := s2
    norm_num [s2']
  exact s3

/- ============================================================
   C1 — what the fetch path actually validates
   ============================================================ -/

/-- A well-formed row (positive OHLC, high ≥ low, no NaN). -/
def goodRow : Row := ⟨.val 1, .val 2, .val 1, .val 1, .val 5⟩

/-- A row with high (1) strictly below low (2), OHLC positive, no NaN. -/
def badRow : Row := ⟨.val 1, .val 1, .val 2, .val 1, .val 5⟩

/-- API v8 supplies 60 rows whose high is below their low; every other
source is unavailable or failing. -/
def c1Env : FetchEnv :=
  ⟨true, .ok (List.replicate 60 badRow), fun _ => .error (), false, .ok none,
   false, .error ()⟩

/-- C1 counterexample: the fetch happily returns a 60-row matrix every one of
whose rows has high < low — `processar_dataframe` checks NaN and positivity
but never high ≥ low, so the claimed "every row has high ≥ low" guarantee is
false. -/
theorem fetch_returns_high_lt_low :
    (buscar_dados_historicos c1Env "B3SA3.SA" 60).1 =
      .ok (List.replicate 60 badRow, Fonte.apiV8) ∧
    (List.replicate 60 badRow).all Row.highGeLow = false := by
  exact ⟨rfl, rfl⟩

/-- C1 (amended): when the accepted matrix came from one of the validated
sources (API v8 or yfinance, i.e. through `processar_dataframe`), it has
exactly `dias` rows, no NaN anywhere, and every OHLC value positive; the
high ≥ low condition is never checked, and matrices served from the SQLite
cache or the hardcoded fallback bypass this validation entirely. -/
theorem fetch_validated_sources_sound (env : FetchEnv) (t : String) (d : ℕ)
    (m : List Row) (f : Fonte)
    (h : (buscar_dados_historicos env t d).1 = .ok (m, f))
    (hf : f = Fonte.apiV8 ∨ f = Fonte.yfinance) :
    m.length = d ∧ ∀ r ∈ m, r.hasNan = false ∧ r.ohlcNonpos = false := by
  rcases buscar_ok_cases env t d m f h with h1 | h2 | h3 | h4
  · rcases h1 with ⟨_, _, df, _, hp⟩
    exact processar_dataframe_ok df d m hp
  · exact processar_dataframe_ok _ d m h2.2.2
  · rw [h3.1] at hf
    rcases hf with hf | hf <;> simp at hf
  · rw [h4.1] at hf
    rcases hf with hf | hf <;> simp at hf

/-- API v8 supplies 60 well-formed rows; every other source fails. -/
def c1GoodEnv : FetchEnv :=
  ⟨true, .ok (List.replicate 60 goodRow), fun _ => .error (), false, .ok none,
   false, .error ()⟩

/-- Witness for C1's amended theorem at a concrete healthy API v8 source. -/
theorem fetch_validated_sources_sound_witness :
    ((buscar_dados_historicos c1GoodEnv "B3SA3.SA" 60).1 =
        .ok (List.replicate 60 goodRow, Fonte.apiV8) ∧
      (Fonte.apiV8 = Fonte.apiV8 ∨ Fonte.apiV8 = Fonte.yfinance)) ∧
    ((List.replicate 60 goodRow).length = 60 ∧
      ∀ r ∈ List.replicate 60 goodRow, r.hasNan = false ∧ r.ohlcNonpos = false) :=
  ⟨⟨rfl, Or.inl rfl⟩,
   fetch_validated_sources_sound c1GoodEnv "B3SA3.SA" 60
     (List.replicate 60 goodRow) Fonte.apiV8 rfl (Or.inl rfl)⟩

/- ============================================================
   C2 — provenance of the accepted matrix
   ============================================================ -/

/-- The claim's scenario: API v8 throws, yfinance returns a nonempty frame of
only 45 of the requested 60 rows, the SQLite cache holds 60 valid rows. -/
def c2Env : FetchEnv :=
  ⟨true, .error (), fun _ => .ok (List.replicate 45 goodRow), true,
   .ok (some (List.replicate 60 goodRow)), false, .error ()⟩

/-- C2 counterexample: in the claim's scenario the fetch does not fall through
to the SQLite source (which holds 60 valid rows) — a nonempty yfinance frame
short of `dias` rows aborts with the insufficient-data error (HTTP 400), so
`fetch(ticker, 60)` does not return provenance = SQLite with 60 rows. -/
theorem fetch_no_fallthrough_on_short_frame :
    c2Env.dbResult = .ok (some (List.replicate 60 goodRow)) ∧
    (buscar_dados_historicos c2Env "B3SA3.SA" 60).1 =
      .error .insufficientData := by
  exact ⟨rfl, rfl⟩

/-- C2 (amended): the provenance of a successful fetch always names the
source that actually supplied the accepted matrix (API v8's processed frame,
yfinance's first nonempty frame, the SQLite rows, or the fallback rows); but
the cascade only reaches SQLite when yfinance left an *empty* frame — a
nonempty frame with fewer than `dias` rows aborts with an error instead of
trying the next source. -/
theorem fetch_provenance_sound (env : FetchEnv) (t : String) (d : ℕ)
    (m : List Row) (f : Fonte)
    (h : (buscar_dados_historicos env t d).1 = .ok (m, f)) :
    (f = Fonte.apiV8 → env.apiV8Disponivel = true ∧
      ∃ df, env.v8Result = .ok df ∧ processar_dataframe df d = .ok m) ∧
    (f = Fonte.yfinance → (yfLoop env.yfAttempt).1.isEmpty = false ∧
      processar_dataframe (yfLoop env.yfAttempt).1 d = .ok m) ∧
    (f = Fonte.sqliteCache → env.dbDisponivel = true ∧
      env.dbResult = .ok (some m) ∧ d ≤ m.length) ∧
    (f = Fonte.fallbackHardcoded → env.fallbackDisponivel = true ∧
      env.fbResult = .ok m) := by
  rcases buscar_ok_cases env t d m f h with
    ⟨hf, h1, df, h2, h3⟩ | ⟨hf, h1, h2⟩ | ⟨hf, h1, h2, h3⟩ | ⟨hf, h1, h2⟩ <;> subst hf
  · exact ⟨fun _ => ⟨h1, df, h2, h3⟩, fun hx => by simp at hx,
      fun hx => by simp at hx, fun hx => by simp at hx⟩
  · exact ⟨fun hx => by simp at hx, fun _ => ⟨h1, h2⟩,
      fun hx => by simp at hx, fun hx => by simp at hx⟩
  · exact ⟨fun hx => by simp at hx, fun hx => by simp at hx,
      fun _ => ⟨h1, h2, h3⟩, fun hx => by simp at hx⟩
  · exact ⟨fun hx => by simp at hx, fun hx => by simp at hx,
      fun hx => by simp at hx, fun _ => ⟨h1, h2⟩⟩

/-- Witness for C2's amended theorem at a concrete healthy API v8 source. -/
theorem fetch_provenance_sound_witness :
    ((buscar_dados_historicos c1GoodEnv "B3SA3.SA" 60).1 =
        .ok (List.replicate 60 goodRow, Fonte.apiV8)) ∧
    ((Fonte.apiV8 = Fonte.apiV8 → c1GoodEnv.apiV8Disponivel = true ∧
        ∃ df, c1GoodEnv.v8Result = .ok df ∧
          processar_dataframe df 60 = .ok (List.replicate 60 goodRow)) ∧
      (Fonte.apiV8 = Fonte.yfinance → (yfLoop c1GoodEnv.yfAttempt).1.isEmpty = false ∧
        processar_dataframe (yfLoop c1GoodEnv.yfAttempt).1 60 =
          .ok (List.replicate 60 goodRow)) ∧
      (Fonte.apiV8 = Fonte.sqliteCache → c1GoodEnv.dbDisponivel = true ∧
        c1GoodEnv.dbResult = .ok (some (List.replicate 60 goodRow)) ∧
        60 ≤ (List.replicate 60 goodRow).length) ∧
      (Fonte.apiV8 = Fonte.fallbackHardcoded → c1GoodEnv.fallbackDisponivel = true ∧
        c1GoodEnv.fbResult = .ok (List.replicate 60 goodRow))) :=
  ⟨rfl,
   fetch_provenance_sound c1GoodEnv "B3SA3.SA" 60
     (List.replicate 60 goodRow) Fonte.apiV8 rfl⟩

/- ============================================================
   C3 — retry/backoff schedule of the cascade
   ============================================================ -/

/-- Every source configured and failing: API v8 throws, all yfinance attempts
throw, the SQLite read throws, no hardcoded fallback. -/
def c3Env : FetchEnv :=
  ⟨true, .error (), fun _ => .error (), true, .error (), false, .error ()⟩

/-- C3 counterexample: with every source failing, the full run makes exactly
one API v8 call and one SQLite call (not 3 of each) — only yfinance is
retried 3 times, with sleeps of 2 then 4 seconds — before returning the
503 DataUnavailable error.  This refutes "every configured source is
attempted up to 3 times with backoff". -/
theorem fetch_single_attempt_per_source :
    buscar_dados_historicos c3Env "B3SA3.SA" 60 =
      (.error .dataUnavailable,
       [.v8Call, .yfCall 0, .sleepSecs 2, .yfCall 1, .sleepSecs 4, .yfCall 2,
        .dbCall]) ∧
    ([FetchEv.v8Call, .yfCall 0, .sleepSecs 2, .yfCall 1, .sleepSecs 4,
      .yfCall 2, .dbCall].count FetchEv.v8Call = 1) ∧
    ([FetchEv.v8Call, .yfCall 0, .sleepSecs 2, .yfCall 1, .sleepSecs 4,
      .yfCall 2, .dbCall].count FetchEv.dbCall = 1) := by
  refine ⟨rfl, by decide, by decide⟩

/-- C3 (amended): in the cascade only yfinance is retried — exactly 3
attempts, with `time.sleep(2 ** (attempt + 1))` (2 s, then 4 s) after a
raising non-final attempt; API v8 is called at most once and the SQLite cache
at most once; only after this whole schedule fails does the fetch return the
503 DataUnavailable error. -/
theorem fetch_retry_schedule (env : FetchEnv) (t : String) (d : ℕ)
    (h1 : env.v8Result = .error ())
    (h2 : ∀ i, env.yfAttempt i = .error ())
    (h3 : env.dbResult = .error ())
    (h4 : env.fallbackDisponivel = false) :
    buscar_dados_historicos env t d =
      (.error .dataUnavailable,
       (if env.apiV8Disponivel then [FetchEv.v8Call] else []) ++
         ([.yfCall 0, .sleepSecs 2, .yfCall 1, .sleepSecs 4, .yfCall 2] ++
           (if env.dbDisponivel then [FetchEv.dbCall] else []))) := by
  have hy := yfLoop_all_error env.yfAttempt h2
  have he1 : estrategia1 env d = none := by
    simp [estrategia1, h1]
  have he3 : estrategia3 env [] d = none := by
    simp [estrategia3, h3]
  unfold buscar_dados_historicos
  rw [he1]
  dsimp only
  rw [hy]
  dsimp only
  rw [he3]
  simp [h4]

/-- Witness for C3's amended theorem at the all-failing environment. -/
theorem fetch_retry_schedule_witness :
    (c3Env.v8Result = .error () ∧ c3Env.dbResult = .error () ∧
      c3Env.fallbackDisponivel = false) ∧
    buscar_dados_historicos c3Env "PETR4.SA" 30 =
      (.error .dataUnavailable,
       (if c3Env.apiV8Disponivel then [FetchEv.v8Call] else []) ++
         ([.yfCall 0, .sleepSecs 2, .yfCall 1, .sleepSecs 4, .yfCall 2] ++
           (if c3Env.dbDisponivel then [FetchEv.dbCall] else []))) :=
  ⟨⟨rfl, rfl, rfl⟩,
   fetch_retry_schedule c3Env "PETR4.SA" 30 rfl (fun _ => rfl) rfl rfl⟩

/- ============================================================
   C8 — temporal safety of the validation pass
   ============================================================ -/

/-- `findSome?` over `range' s n` yields the least index that produces a
`some`, with every earlier index producing `none`. -/
theorem findSome?_range'_first {β : Type} (f : ℕ → Option β) :
    ∀ (n s : ℕ) (b : β), (List.range' s n).findSome? f = some b →
      ∃ k, s ≤ k ∧ k < s + n ∧ f k = some b ∧
        ∀ j, s ≤ j → j < k → f j = none := by
  intro n
  induction n with
  | zero => intro s b h; simp at h
  | succ n ih =>
      intro s b h
      rw [List.range'_succ, List.findSome?_cons] at h
      cases hfs : f s with
      | some b' =>
          rw [hfs] at h
          obtain hb : b' = b := by simpa using h
          exact ⟨s, le_refl s, by omega, hb ▸ hfs,
            fun j hj1 hj2 => absurd hj1 (by omega)⟩
      | none =>
          rw [hfs] at h
          rcases ih (s + 1) b h with ⟨k, hk1, hk2, hk3, hk4⟩
          refine ⟨k, by omega, by omega, hk3, fun j hj1 hj2 => ?_⟩
          rcases Nat.eq_or_lt_of_le hj1 with hj | hj
          · rw [← hj]; exact hfs
          · exact hk4 j hj hj2

/-- Inversion for the realized-price search: a hit is the Close at the first
available date in the 5-day window starting at `nd`. -/
theorem findActual_eq_some (data : MarketData) (nd d : ℤ) (c : ℚ)
    (h : findActual data nd = some (d, c)) :
    lookupClose data d = some c ∧ nd ≤ d ∧ d ≤ nd + 4 ∧
      ∀ e : ℤ, nd ≤ e → e < d → lookupClose data e = none := by
  unfold findActual at h
  rw [List.range_eq_range'] at h
  rcases findSome?_range'_first _ 5 0 _ h with ⟨k, _, hk5, hk3, hk4⟩
  rcases Option.map_eq_some'.mp hk3 with ⟨c', hc', heq⟩
  obtain ⟨hd, hc⟩ : nd + (k : ℤ) = d ∧ c' = c := by
    constructor
    · exact congrArg Prod.fst heq
    · exact congrArg Prod.snd heq
  subst hd
  subst hc
  refine ⟨hc', by omega, by omega, ?_⟩
  intro e he1 he2
  have hj0 : (0 : ℤ) ≤ e - nd := by omega
  have hj : ((e - nd).toNat : ℤ) = e - nd := Int.toNat_of_nonneg hj0
  have hjk : (e - nd).toNat < k := by omega
  have hnone := hk4 (e - nd).toNat (by omega) hjk
  have hl : lookupClose data (nd + ((e - nd).toNat : ℤ)) = none :=
    Option.map_eq_none'.mp hnone
  rw [show nd + ((e - nd).toNat : ℤ) = e by omega] at hl
  exact hl

/-- C8: the validation pass never validates a record whose target day
(`timestamp + 1`) is still in the future — such a record is left unchanged
and counted skipped — and every record it newly marks validated got, as
actual value, the realized Close at the matched date: the first date present
in the realized series among target + 0..4 days; no data from any date
strictly after the matched date (or before the target) is used. -/
theorem validator_temporal_safety (preds : List Prediction) (data : MarketData)
    (today : ℤ) :
    (∀ p ∈ preds, p.validated = false → today < p.timestamp + 1 →
        validate_one data today today p = (p, ValOutcome.skippedFuture)) ∧
    (∀ q ∈ (validate_predictions preds (some data) today).2, q.validated = true →
        q ∈ preds ∨
        ∃ p ∈ preds, p.validated = false ∧ p.timestamp + 1 ≤ today ∧
          ∃ dc : ℤ × ℚ, findActual data (p.timestamp + 1) = some dc ∧
            q.actual_value = some dc.2 ∧ lookupClose data dc.1 = some dc.2 ∧
            p.timestamp + 1 ≤ dc.1 ∧ dc.1 ≤ p.timestamp + 5 ∧
            ∀ e : ℤ, p.timestamp + 1 ≤ e → e < dc.1 → lookupClose data e = none) := by
  constructor
  · intro p _ _ hfut
    unfold validate_one
    rw [if_pos hfut]
  · intro q hq hqv
    unfold validate_predictions at hq
    by_cases hemp : (preds.filter fun p => p.validated = false).isEmpty = true
    · rw [if_pos hemp] at hq
      exact Or.inl hq
    · rw [if_neg hemp] at hq
      dsimp only at hq
      by_cases hde : data.isEmpty = true
      · rw [if_pos hde] at hq
        exact Or.inl hq
      · rw [if_neg hde] at hq
        dsimp only at hq
        rcases List.mem_map.mp hq with ⟨p, hp, hfp⟩
        by_cases hpv : p.validated = false
        · rw [if_pos hpv] at hfp
          by_cases hfut : today < p.timestamp + 1
          · have hone : (validate_one data today today p).1 = p := by
              unfold validate_one
              rw [if_pos hfut]
            rw [hone] at hfp
            rw [← hfp] at hqv
            exact absurd hqv (by simp [hpv])
          · have hfut' : p.timestamp + 1 ≤ today := by omega
            cases hfa : findActual data (p.timestamp + 1) with
            | none =>
                have hone : (validate_one data today today p).1 = p := by
                  unfold validate_one
                  rw [if_neg hfut, hfa]
                rw [hone] at hfp
                rw [← hfp] at hqv
                exact absurd hqv (by simp [hpv])
            | some dc =>
                have hone : (validate_one data today today p).1 =
                    { p with
                      validated := true
                      actual_value := some dc.2
                      error := some (abs (p.predicted_value - dc.2))
                      error_pct := some (abs (p.predicted_value - dc.2) / dc.2 * 100)
                      validation_date := some today } := by
                  unfold validate_one
                  rw [if_neg hfut, hfa]
                rcases findActual_eq_some data (p.timestamp + 1) dc.1 dc.2
                    (by rw [hfa]) with ⟨hlook, hge, hle, hmin⟩
                refine Or.inr ⟨p, hp, hpv, hfut', dc, hfa, ?_, hlook, hge,
                  by omega, hmin⟩
                rw [← hfp, hone]
        · rw [if_neg hpv] at hfp
          rw [← hfp]
          exact Or.inl hp

/-- A prediction whose target day (26) is after the witness's "today" (20). -/
def pFut : Prediction := ⟨"a", 25, 50, false, none, none, none, none⟩

/-- A due prediction: made on day 10, so its target day is 11. -/
def pDue : Prediction := ⟨"b", 10, 50, false, none, none, none, none⟩

/-- Realized prices: Close 40 on day 11. -/
def data0 : MarketData := [(11, 40)]

/-- `pDue` as the pass validates it: actual 40, error 10, error_pct 25. -/
def qDue : Prediction := ⟨"b", 10, 50, true, some 40, some 10, some 25, some 20⟩

/-- Witness for C8: the future-dated record is skipped unchanged, and the due
record is validated from the Close at its matched date (day 11). -/
theorem validator_temporal_safety_witness :
    (pFut ∈ [pFut, pDue] ∧ pFut.validated = false ∧ (20 : ℤ) < pFut.timestamp + 1 ∧
      validate_one data0 20 20 pFut = (pFut, ValOutcome.skippedFuture)) ∧
    (qDue ∈ (validate_predictions [pFut, pDue] (some data0) 20).2 ∧
      qDue.validated = true ∧
      (qDue ∈ [pFut, pDue] ∨
        ∃ p ∈ [pFut, pDue], p.validated = false ∧ p.timestamp + 1 ≤ 20 ∧
          ∃ dc : ℤ × ℚ, findActual data0 (p.timestamp + 1) = some dc ∧
            qDue.actual_value = some dc.2 ∧ lookupClose data0 dc.1 = some dc.2 ∧
            p.timestamp + 1 ≤ dc.1 ∧ dc.1 ≤ p.timestamp + 5 ∧
            ∀ e : ℤ, p.timestamp + 1 ≤ e → e < dc.1 → lookupClose data0 e = none)) := by
  have h1 : validate_one data0 20 20 pFut = (pFut, ValOutcome.skippedFuture) := rfl
  have h2 : validate_one data0 20 20 pDue = (qDue, ValOutcome.validatedOk) := by
    have hfa : findActual data0 (pDue.timestamp + 1) = some (11, 40) := rfl
    unfold validate_one
    rw [if_neg (by norm_num [pDue] : ¬ (20 : ℤ) < pDue.timestamp + 1), hfa]
    dsimp only
    simp only [pDue, qDue, Prod.mk.injEq, Prediction.mk.injEq]
    norm_num
  have hres : (validate_predictions [pFut, pDue] (some data0) 20).2 = [pFut, qDue] := by
    unfold validate_predictions
    rw [if_neg (by decide)]
    dsimp only
    rw [if_neg (by decide)]
    dsimp only
    simp only [List.map_cons, List.map_nil]
    rw [if_pos (show pFut.validated = false from rfl),
      if_pos (show pDue.validated = false from rfl),
      show (validate_one data0 20 20 pFut).1 = pFut from by rw [h1],
      show (validate_one data0 20 20 pDue).1 = qDue from by rw [h2]]
  refine ⟨⟨by simp, rfl, by decide,
    (validator_temporal_safety [pFut, pDue] data0 20).1 pFut (by simp) rfl
      (by decide)⟩,
   ⟨?_, rfl, (validator_temporal_safety [pFut, pDue] data0 20).2 qDue ?_ rfl⟩⟩ <;>
  · rw [hres]
    simp

end PredictFinance
